import Mathlib

/-!
Verification development for the CyberSentinel JNI bridge
(`src/app/src/main/cpp/llama_jni.cpp`).

The development shallowly embeds the three cores of that file:

* `is_json_object_closed` (lines 267-307): the closing-brace detector, a
  character-by-character state machine over the generated text.  A
  `std::string` is embedded as `List Char`; the early `return true` of the
  C loop is embedded as a step function returning `none` ("reported
  closed") and a runner that stops on `none`.
* the generational handle registry (lines 119-171): `registry_insert`,
  `registry_lookup`, `registry_erase` acting on a state holding the
  handle table (an association list standing for the `unordered_map`)
  plus the two `uint32_t` counters, embedded as `Nat` with explicit
  `% 2 ^ 32` where the C `++` may wrap.
* `nativeRunInference` (lines 309-493): its sequence of guard checks and
  the greedy decode loop.  The external inference engine
  (tokenize/argmax/decode results), the wall clock, and the values a
  concurrent unload/cancel makes the atomic flags take at each observation
  point are oracles collected in an `Env`; the decode loop itself is a
  fuel-bounded recursion mirroring `for (int i = 0; i < maxTokens; i++)`.

The success return string "TOKEN_COUNT|TTFT_MS|text" is embedded as
`RunResult.ok tokenCount ttftMs text`, and the error string
"ERR|CODE|message" as `RunResult.err code`.
-/

-- ══════════════════════════════════════════════════════════
--  Closing-brace detector (llama_jni.cpp lines 267-307)
-- ══════════════════════════════════════════════════════════

/-- The local state of the `for (char c : text)` loop of
`is_json_object_closed`: `depth`, `seen_open`, `in_string`,
`consecutive_backslashes` (lines 268-271). -/
structure DetState where
  depth : Int
  seen_open : Bool
  in_string : Bool
  consecutive_backslashes : Nat
deriving DecidableEq

/-- One iteration of the loop body (lines 273-305).  `none` embeds the
early `return true` at line 304; `some st` embeds falling through to the
next character with updated state. -/
def detStep (st : DetState) (c : Char) : Option DetState :=
  if !st.seen_open && c != '\x7b' then
    -- line 274: skip any preamble before the first opening brace
    some st
  else if c.toNat < 0x20 then
    -- line 281: control characters reset the backslash counter
    some (DetState.mk st.depth st.seen_open st.in_string 0)
  else if c == '\\' then
    -- line 286: count consecutive backslashes
    some (DetState.mk st.depth st.seen_open st.in_string (st.consecutive_backslashes + 1))
  else if c == '"' && !(st.consecutive_backslashes % 2 == 1) then
    -- lines 292-296: an unescaped quote toggles the string state
    some (DetState.mk st.depth st.seen_open (!st.in_string) 0)
  else if st.in_string then
    -- line 300: characters inside a string are content
    some (DetState.mk st.depth st.seen_open st.in_string 0)
  else
    -- lines 302-304: brace accounting and the closed check
    if (st.seen_open || c == '\x7b') &&
        ((if c == '\x7b' then st.depth + 1
          else if c == '\x7d' then st.depth - 1
          else st.depth) == 0) then
      none
    else
      some (DetState.mk
        (if c == '\x7b' then st.depth + 1
         else if c == '\x7d' then st.depth - 1
         else st.depth)
        (st.seen_open || c == '\x7b') st.in_string 0)

/-- Run the detector loop over the remaining characters; `false` embeds
the final `return false` at line 306. -/
def detRun (st : DetState) : List Char → Bool
  | [] => false
  | c :: rest =>
    match detStep st c with
    | none => true
    | some st2 => detRun st2 rest

/-- `is_json_object_closed` (line 267): the loop starts from
depth 0, no opening brace seen, outside any string, zero backslashes. -/
def is_json_object_closed (text : List Char) : Bool :=
  detRun (DetState.mk 0 false false 0) text

-- ── concrete inputs from the spec's test cases ──

/-- The 12-character input of the spec's escaped-backslash test case,
written in the spec as an open brace, the string "a", a colon, then
backslash backslash quote brace quote brace. -/
def inputBraces12 : List Char :=
  ['\x7b', '"', 'a', '"', ':', '"', '\\', '\\', '"', '\x7d', '"', '\x7d']

/-- The 11-character variant with a single backslash (an escaped quote)
before the in-string closing brace. -/
def inputEscQuote11 : List Char :=
  ['\x7b', '"', 'a', '"', ':', '"', '\\', '"', '\x7d', '"', '\x7d']

/-- The 7-character input of the simple test case: an object with one
numeric member. -/
def inputSimple7 : List Char :=
  ['\x7b', '"', 'a', '"', ':', '1', '\x7d']

/-- The 17-character input with whitespace/newline preamble and a nested
object. -/
def inputNested17 : List Char :=
  [' ', ' ', '\n', ' ', '\x7b', '"', 'x', '"', ':',
   '\x7b', '"', 'y', '"', ':', '2', '\x7d', '\x7d']

/-- The 16-character unterminated input: no closing brace ever appears. -/
def inputUnterminated16 : List Char :=
  ['\x7b', '"', 'u', 'n', 't', 'e', 'r', 'm', 'i', 'n', 'a', 't', 'e', 'd', '"', ':']

-- ══════════════════════════════════════════════════════════
--  Generational handle registry (llama_jni.cpp lines 119-171)
-- ══════════════════════════════════════════════════════════

/-- The modulus of the two `uint32_t` counters `g_generation`, `g_slot`. -/
abbrev U32 : Nat := 4294967296

/-- The part of a `LlamaSession` that `nativeRunInference` reads through
non-atomic fields: whether `model` and `ctx` are null (line 334), the
configured context window `n_ctx` (lines 359, 378), and the value the
`cancel_flag` atomic holds when the call starts (before the store at
line 349). -/
structure SessInfo where
  modelNull : Bool
  ctxNull : Bool
  n_ctx : Int
  cancel_flag : Bool
deriving DecidableEq

/-- Association-list lookup, embedding `g_registry.find(handle)`. -/
def lookupA : List (Nat × SessInfo) → Nat → Option SessInfo
  | [], _ => none
  | p :: t, h => if p.1 = h then some p.2 else lookupA t h

/-- Remove a key, embedding `g_registry.erase(it)` (keys are unique by
construction, so removing every occurrence is the same entry). -/
def removeA : List (Nat × SessInfo) → Nat → List (Nat × SessInfo)
  | [], _ => []
  | p :: t, h => if p.1 = h then removeA t h else p :: removeA t h

/-- The registry's mutable state (lines 120-122): the handle table and
the two monotonically incremented `uint32_t` counters. -/
structure RegState where
  table : List (Nat × SessInfo)
  generation : Nat
  slot : Nat
deriving DecidableEq

/-- The process-start state: empty map, both counters zero. -/
def regInit : RegState := RegState.mk [] 0 0

/-- `registry_insert` (lines 128-145): pre-increment both counters (with
`uint32_t` wraparound), refuse with the sentinel handle 0 if either
wrapped to zero — note the incremented counters are kept either way —
otherwise store the session under `(gen << 32) | slot` and return that
handle.  `g_registry[handle] = session` overwrites, embedded as
remove-then-prepend. -/
def registry_insert (g : RegState) (s : SessInfo) : RegState × Nat :=
  let gen := (g.generation + 1) % U32
  let slot := (g.slot + 1) % U32
  if gen = 0 ∨ slot = 0 then
    (RegState.mk g.table gen slot, 0)
  else
    (RegState.mk ((gen * U32 + slot, s) :: removeA g.table (gen * U32 + slot)) gen slot,
     gen * U32 + slot)

/-- `registry_lookup` (lines 151-156): `none` embeds the `nullptr`
not-found result. -/
def registry_lookup (g : RegState) (h : Nat) : Option SessInfo :=
  lookupA g.table h

/-- `registry_erase` (lines 164-171): remove the entry if present and
hand the session back to the caller. -/
def registry_erase (g : RegState) (h : Nat) : RegState × Option SessInfo :=
  match lookupA g.table h with
  | none => (g, none)
  | some s => (RegState.mk (removeA g.table h) g.generation g.slot, some s)

/-- One registry-mutating call of the JNI surface: `nativeLoadModel`
performs `registry_insert`, `nativeUnload` performs `registry_erase`. -/
inductive RegOp where
  | load (s : SessInfo)
  | unload (h : Nat)
deriving DecidableEq

/-- State transition of one operation. -/
def execOp (g : RegState) : RegOp → RegState
  | RegOp.load s => (registry_insert g s).1
  | RegOp.unload h => (registry_erase g h).1

/-- State after a sequence of operations. -/
def execTrace (g : RegState) : List RegOp → RegState
  | [] => g
  | op :: rest => execTrace (execOp g op) rest

/-- Every handle value `registry_insert` returns along a trace
(including the sentinel 0 of refused inserts). -/
def issuedFrom (g : RegState) : List RegOp → List Nat
  | [] => []
  | RegOp.load s :: rest => (registry_insert g s).2 :: issuedFrom (execOp g (RegOp.load s)) rest
  | RegOp.unload h :: rest => issuedFrom (execOp g (RegOp.unload h)) rest

/-- A concrete healthy session value (model/ctx non-null, n_ctx 2048). -/
def sampleSession : SessInfo := SessInfo.mk false false 2048 false

/-- A second, distinguishable session value. -/
def sampleSession2 : SessInfo := SessInfo.mk false false 1024 false

-- ══════════════════════════════════════════════════════════
--  nativeRunInference (llama_jni.cpp lines 309-493)
-- ══════════════════════════════════════════════════════════

/-- Everything `nativeRunInference` observes from outside its own control
flow, per call: the two loads of the `poisoned` atomic (lines 331 and
344, whose values a racing `nativeUnload` determines), whether
`GetStringUTFChars` returns null (line 352), the result of
`llama_tokenize` (line 361), whether the prefill `llama_decode` succeeds
(line 394), and per decode-loop iteration `i`: whether a concurrent
`nativeCancelInference` store becomes visible between the previous check
and this one (`reqAt`, read at line 415), the elapsed wall-clock
milliseconds (line 422), the argmax token (lines 432-439), the text
piece of that token (line 449), whether the feed-back `llama_decode`
succeeds (line 475), plus the engine's EOS token id and the measured
time-to-first-token value (lines 457-461). -/
structure Env where
  poisoned1 : Bool
  poisoned2 : Bool
  promptNull : Bool
  nTokens : Int
  prefillOk : Bool
  reqAt : Nat → Bool
  elapsedAt : Nat → Int
  bestTokenAt : Nat → Nat
  eos : Nat
  pieceAt : Nat → List Char
  decodeOkAt : Nat → Bool
  ttftMs : Int

/-- The machine-readable kinds of the "ERR|CODE|message" return strings
(lines 321-397). -/
inductive ErrCode where
  | NULL_HANDLE
  | STALE_HANDLE
  | POISONED
  | NULL_CTX
  | NULL_PROMPT
  | TOKENIZE
  | CTX_OVERFLOW
  | DECODE
deriving DecidableEq

/-- The return value of `nativeRunInference`: `ok n t s` embeds the
success string "n|t|s" (lines 489-492), `err c` embeds "ERR|c|message"
(both POISONED sites share the code, differing only in message). -/
inductive RunResult where
  | err (code : ErrCode)
  | ok (tokenCount : Nat) (ttftMs : Int) (text : List Char)
deriving DecidableEq

/-- The decode loop's mutable locals (lines 406-411): the accumulated
`output`, `generated_count` and `ttft_ms`. -/
structure LoopSt where
  output : List Char
  count : Nat
  ttft : Int
deriving DecidableEq

/-- The decode loop (lines 413-481).  `fuel` is the remaining iteration
budget (`maxTokens - i`), `i` the iteration index, `flag` the current
value of the session's `cancel_flag` atomic (updated by `reqAt` before
each load at line 415).  Each early `break` returns the current state;
after the loop the caller packages state into the success result. -/
def runLoop (env : Env) (timeoutMs : Int) : Nat → Nat → Bool → LoopSt → LoopSt
  | 0, _, _, st => st
  | fuel + 1, i, flag, st =>
    -- line 415: cooperative cancel check
    if flag || env.reqAt i then st
    -- lines 421-423: timeout check
    else if timeoutMs < env.elapsedAt i then st
    -- line 442: EOS check
    else if env.bestTokenAt i = env.eos then st
    -- lines 447-461: append piece, bump count, capture TTFT
    -- line 465: JSON stop check on the extended output
    else if is_json_object_closed (st.output ++ env.pieceAt i) then
      LoopSt.mk (st.output ++ env.pieceAt i) (st.count + 1)
        (if st.count + 1 = 1 then env.ttftMs else st.ttft)
    -- lines 471-480: feed the token back; break on decode failure
    else if env.decodeOkAt i then
      runLoop env timeoutMs fuel (i + 1) (flag || env.reqAt i)
        (LoopSt.mk (st.output ++ env.pieceAt i) (st.count + 1)
          (if st.count + 1 = 1 then env.ttftMs else st.ttft))
    else
      LoopSt.mk (st.output ++ env.pieceAt i) (st.count + 1)
        (if st.count + 1 = 1 then env.ttftMs else st.ttft)

/-- `nativeRunInference` (lines 309-493).  `handle` is the caller's
jlong; `sessionOpt` is the result of `registry_lookup` (line 325); the
remaining behaviour of the call is driven by `env`.  The guard sequence
mirrors lines 320-397 in order; the literal `false` passed to `runLoop`
as the initial cancel flag embeds the store
`session->cancel_flag.store(false)` at line 349 — the stale
`cancel_flag` value of the session is deliberately not consulted. -/
def nativeRunInference (handle : Nat) (sessionOpt : Option SessInfo) (env : Env)
    (maxTokens : Nat) (timeoutMs : Int) : RunResult :=
  if handle = 0 then RunResult.err ErrCode.NULL_HANDLE
  else
    match sessionOpt with
    | none => RunResult.err ErrCode.STALE_HANDLE
    | some s =>
      -- line 331: poisoned check before the guard
      if env.poisoned1 then RunResult.err ErrCode.POISONED
      else if s.modelNull || s.ctxNull then RunResult.err ErrCode.NULL_CTX
      -- line 344: poisoned re-check after InferenceGuard construction
      else if env.poisoned2 then RunResult.err ErrCode.POISONED
      else if env.promptNull then RunResult.err ErrCode.NULL_PROMPT
      -- line 371: negative tokenization result
      else if env.nTokens < 0 then RunResult.err ErrCode.TOKENIZE
      -- line 378: prompt must be strictly smaller than the context window
      else if s.n_ctx ≤ env.nTokens then RunResult.err ErrCode.CTX_OVERFLOW
      -- line 394: prefill decode
      else if env.prefillOk then
        let st := runLoop env timeoutMs maxTokens 0 false (LoopSt.mk [] 0 0)
        RunResult.ok st.count st.ttft st.output
      else RunResult.err ErrCode.DECODE

/-- The output accumulated by `n` completed loop iterations. -/
def accumOut (env : Env) : Nat → List Char
  | 0 => []
  | n + 1 => accumOut env n ++ env.pieceAt n

/-- The `ttft_ms` value after `n` completed iterations: 0 before the
first token, the measured TTFT afterwards. -/
def ttftAt (env : Env) : Nat → Int
  | 0 => 0
  | _ + 1 => env.ttftMs

/-- The loop state after `n` completed iterations. -/
def stAt (env : Env) (n : Nat) : LoopSt :=
  LoopSt.mk (accumOut env n) n (ttftAt env n)

/-- Iteration `i` runs to completion: no cancel request becomes visible,
the deadline has not passed, the argmax token is not EOS, the extended
output is not yet a closed JSON object, and the feed-back decode
succeeds. -/
def stepCompletes (env : Env) (timeoutMs : Int) (i : Nat) : Prop :=
  env.reqAt i = false ∧ env.elapsedAt i ≤ timeoutMs ∧
  env.bestTokenAt i ≠ env.eos ∧
  is_json_object_closed (accumOut env (i + 1)) = false ∧
  env.decodeOkAt i = true

instance stepCompletesDecidable (env : Env) (timeoutMs : Int) (i : Nat) :
    Decidable (stepCompletes env timeoutMs i) := by
  unfold stepCompletes
  infer_instance

-- ── concrete environments for the witness theorems ──

/-- A benign call environment: healthy flags, prompt of 3 tokens, every
iteration yields token 1 (EOS is 0) producing text piece "a", decode
always succeeds, no cancel request, no deadline pressure, TTFT 7 ms. -/
def envBase : Env :=
  Env.mk false false false 3 true (fun _ => false) (fun _ => 0) (fun _ => 1) 0
    (fun _ => ['a']) (fun _ => true) 7

/-- Like `envBase` but the first poisoned load observes `true`. -/
def envPoisonedBefore : Env :=
  Env.mk true false false 3 true (fun _ => false) (fun _ => 0) (fun _ => 1) 0
    (fun _ => ['a']) (fun _ => true) 7

/-- Like `envBase` but only the post-guard poisoned load observes
`true` (an unload raced the call's setup). -/
def envPoisonedAfter : Env :=
  Env.mk false true false 3 true (fun _ => false) (fun _ => 0) (fun _ => 1) 0
    (fun _ => ['a']) (fun _ => true) 7

/-- Like `envBase` but tokenization reports -1. -/
def envTokenizeNeg : Env :=
  Env.mk false false false (-1) true (fun _ => false) (fun _ => 0) (fun _ => 1) 0
    (fun _ => ['a']) (fun _ => true) 7

/-- Like `envBase` but the prompt tokenizes to exactly the context
window size 2048. -/
def envCtxOverflow : Env :=
  Env.mk false false false 2048 true (fun _ => false) (fun _ => 0) (fun _ => 1) 0
    (fun _ => ['a']) (fun _ => true) 7

/-- Like `envBase` but the feed-back decode fails from iteration 1 on. -/
def envDecodeFailAt1 : Env :=
  Env.mk false false false 3 true (fun _ => false) (fun _ => 0) (fun _ => 1) 0
    (fun _ => ['a']) (fun i => i == 0) 7

/-- Like `envBase` but a cancel request becomes visible at check 2. -/
def envCancelAt2 : Env :=
  Env.mk false false false 3 true (fun i => i == 2) (fun _ => 0) (fun _ => 1) 0
    (fun _ => ['a']) (fun _ => true) 7

/-- Like `envBase` but a cancel request is already visible at check 0. -/
def envCancelAt0 : Env :=
  Env.mk false false false 3 true (fun _ => true) (fun _ => 0) (fun _ => 1) 0
    (fun _ => ['a']) (fun _ => true) 7

/-- A session whose previous call left the cancel flag `true`. -/
def sessionStale : SessInfo := SessInfo.mk false false 2048 true

-- ══════════════════════════════════════════════════════════
--  Theorems
-- ══════════════════════════════════════════════════════════

-- ── helper lemmas about the detector ──

/-- Appending further text cannot retract a `true` verdict: the runner
reaches the same early exit on the same prefix. -/
theorem detRun_append_true (t : List Char) :
    ∀ (s : List Char) (st : DetState),
    detRun st s = true → detRun st (s ++ t) = true := by
  intro s
  induction s with
  | nil =>
    intro st h
    simp [detRun] at h
  | cons c cs ih =>
    intro st h
    rw [List.cons_append]
    rw [detRun] at h ⊢
    cases hs : detStep st c with
    | none => simp [hs]
    | some st2 =>
      rw [hs] at h
      simp only at h ⊢
      exact ih st2 h

/-- Monotonicity of the detector under appending text. -/
theorem closed_append_mono (s t : List Char)
    (h : is_json_object_closed s = true) :
    is_json_object_closed (s ++ t) = true :=
  detRun_append_true t s (DetState.mk 0 false false 0) h

/-- If the detector first reports closed at prefix length `m` of `s`,
then it reports closed on `s.take n` exactly for `m ≤ n`. -/
theorem closed_take_iff_of_threshold (s : List Char) (m : Nat)
    (hbelow : ∀ n, n < m → is_json_object_closed (List.take n s) = false)
    (hat : is_json_object_closed (List.take m s) = true) :
    ∀ n, (is_json_object_closed (List.take n s) = true ↔ m ≤ n) := by
  intro n
  constructor
  · intro hn
    by_contra hlt
    have h1 : n < m := Nat.lt_of_not_le hlt
    rw [hbelow n h1] at hn
    cases hn
  · intro hmn
    have hsplit : List.take n s = List.take m s ++ List.drop m (List.take n s) := by
      conv_lhs => rw [← List.take_append_drop m (List.take n s)]
      rw [List.take_take, Nat.min_eq_left hmn]
    rw [hsplit]
    exact closed_append_mono _ _ hat

/-- If no prefix up to the full length is reported closed, no prefix at
all is (taking more than the length yields the whole list). -/
theorem closed_take_false_of_all (s : List Char)
    (hall : ∀ n, n ≤ s.length → is_json_object_closed (List.take n s) = false) :
    ∀ n, is_json_object_closed (List.take n s) = false := by
  intro n
  rcases Nat.le_total n s.length with h | h
  · exact hall n h
  · rw [List.take_of_length_le h]
    have h2 := hall s.length (Nat.le_refl _)
    rwa [List.take_length] at h2

/-- Claim C2 counterexample: on the 12-character input, the detector
reports closed already at the 10-character prefix, the one ending at the
brace the claim calls "in-string".  The quote before that brace is
preceded by an even (two-long) backslash run, so it is unescaped, closes
the string, and the brace is structural. -/
theorem c2_escape_counterexample :
    is_json_object_closed (List.take 10 inputBraces12) = true := by decide

/-- Claim C2, amended: for the 12-character input the quote after the
escaped backslash ends the string, so the detector first reports closed
at the 10-character prefix (the first brace is structural); the intended
in-string-brace behaviour holds for the 11-character single-backslash
variant, where the detector stays open across the in-string brace and
first reports closed at the final structural brace. -/
theorem c2_escape_amended :
    (∀ n, (is_json_object_closed (List.take n inputBraces12) = true ↔ 10 ≤ n)) ∧
    (∀ n, (is_json_object_closed (List.take n inputEscQuote11) = true ↔ 11 ≤ n)) :=
  ⟨closed_take_iff_of_threshold _ 10 (by decide) (by decide),
   closed_take_iff_of_threshold _ 11 (by decide) (by decide)⟩

/-- Claim C8: the simple object closes exactly when its final character
is processed; the preamble input closes exactly at the end of the nested
object; the unterminated input is never reported closed for any prefix. -/
theorem c8_detector_concrete_cases :
    (∀ n, (is_json_object_closed (List.take n inputSimple7) = true ↔ 7 ≤ n)) ∧
    (∀ n, (is_json_object_closed (List.take n inputNested17) = true ↔ 17 ≤ n)) ∧
    (∀ n, is_json_object_closed (List.take n inputUnterminated16) = false) :=
  ⟨closed_take_iff_of_threshold _ 7 (by decide) (by decide),
   closed_take_iff_of_threshold _ 17 (by decide) (by decide),
   closed_take_false_of_all _ (by decide)⟩

/-- Claim C10: the detector's verdict is monotone under appending text;
once the decode loop's closed-object stop condition holds for the
accumulated output it cannot be retracted by any later token. -/
theorem c10_closed_monotone_append (s t : List Char)
    (h : is_json_object_closed s = true) :
    is_json_object_closed (s ++ t) = true :=
  closed_append_mono s t h

/-- Witness for C10 at a concrete input. -/
theorem c10_closed_monotone_append_witness :
    is_json_object_closed (['\x7b', '\x7d'] ++ ['x']) = true :=
  c10_closed_monotone_append ['\x7b', '\x7d'] ['x'] (by decide)

-- ── helper lemmas about the registry ──

/-- Removing a key removes exactly that key from lookups. -/
theorem lookupA_removeA (t : List (Nat × SessInfo)) (k h : Nat) :
    lookupA (removeA t k) h = if h = k then none else lookupA t h := by
  induction t with
  | nil => simp [removeA, lookupA]
  | cons p t ih =>
    obtain ⟨a, v⟩ := p
    rw [removeA]
    by_cases hak : a = k
    · rw [if_pos hak, ih]
      by_cases hhk : h = k
      · rw [if_pos hhk, if_pos hhk]
      · rw [if_neg hhk, if_neg hhk, lookupA,
          if_neg (fun he : a = h => hhk (he.symm.trans hak))]
    · rw [if_neg hak, lookupA, ih, lookupA]
      by_cases hah : a = h
      · rw [if_pos hah, if_neg (fun he : h = k => hak (hah.trans he)), if_pos hah]
      · by_cases hhk : h = k
        · rw [if_neg hah, if_pos hhk, if_pos hhk]
        · rw [if_neg hah, if_neg hhk, if_neg hhk, if_neg hah]

/-- The state `registry_insert` leaves behind carries the incremented
generation counter whether or not the insert was refused. -/
theorem insert_state_generation (g : RegState) (s : SessInfo) :
    ((registry_insert g s).1).generation = (g.generation + 1) % U32 := by
  simp only [registry_insert]
  split
  · rfl
  · rfl

/-- Same for the slot counter. -/
theorem insert_state_slot (g : RegState) (s : SessInfo) :
    ((registry_insert g s).1).slot = (g.slot + 1) % U32 := by
  simp only [registry_insert]
  split
  · rfl
  · rfl

/-- `registry_erase` never touches the counters. -/
theorem erase_state_generation (g : RegState) (h : Nat) :
    ((registry_erase g h).1).generation = g.generation := by
  simp only [registry_erase]
  cases lookupA g.table h
  · rfl
  · rfl

/-- `registry_erase` never touches the counters. -/
theorem erase_state_slot (g : RegState) (h : Nat) :
    ((registry_erase g h).1).slot = g.slot := by
  simp only [registry_erase]
  cases lookupA g.table h
  · rfl
  · rfl

/-- Executing a trace distributes over concatenation. -/
theorem execTrace_append (t1 t2 : List RegOp) :
    ∀ g : RegState, execTrace g (t1 ++ t2) = execTrace (execTrace g t1) t2 := by
  induction t1 with
  | nil => intro g; rfl
  | cons op rest ih =>
    intro g
    rw [List.cons_append, execTrace, execTrace]
    exact ih (execOp g op)

/-- A handle different from the one an insert returns, and absent before
the insert, is still absent after it. -/
theorem lookup_insert_none (g : RegState) (s : SessInfo) (h : Nat)
    (hg : registry_lookup g h = none) (hne : ¬ h = (registry_insert g s).2) :
    registry_lookup ((registry_insert g s).1) h = none := by
  by_cases hc : (g.generation + 1) % U32 = 0 ∨ (g.slot + 1) % U32 = 0
  · simp only [registry_insert, if_pos hc]
    exact hg
  · simp only [registry_insert, if_neg hc] at hne ⊢
    simp only [registry_lookup, lookupA]
    rw [if_neg (fun he => hne he.symm), lookupA_removeA, if_neg hne]
    exact hg

/-- Erasing any handle preserves absence of `h`. -/
theorem lookup_erase_none (g : RegState) (k h : Nat)
    (hg : registry_lookup g h = none) :
    registry_lookup ((registry_erase g k).1) h = none := by
  cases hl : lookupA g.table k with
  | none =>
    simp only [registry_erase, hl]
    exact hg
  | some s =>
    simp only [registry_erase, hl, registry_lookup]
    rw [lookupA_removeA]
    by_cases hhk : h = k
    · rw [if_pos hhk]
    · rw [if_neg hhk]
      exact hg

/-- Immediately after `registry_erase h`, looking up `h` fails. -/
theorem lookup_after_erase (g : RegState) (h : Nat) :
    registry_lookup ((registry_erase g h).1) h = none := by
  cases hl : lookupA g.table h with
  | none =>
    simp only [registry_erase, hl]
    exact hl
  | some s =>
    simp only [registry_erase, hl, registry_lookup]
    rw [lookupA_removeA, if_pos rfl]

/-- Main registry invariant: a handle absent from the table that no
insert of the trace returns stays absent along the whole trace. -/
theorem lookup_none_of_not_issued (t : List RegOp) :
    ∀ (g : RegState) (h : Nat), registry_lookup g h = none →
    h ∉ issuedFrom g t → registry_lookup (execTrace g t) h = none := by
  induction t with
  | nil =>
    intro g h hg _
    exact hg
  | cons op rest ih =>
    intro g h hg hni
    cases op with
    | load s =>
      rw [execTrace]
      apply ih
      · apply lookup_insert_none g s h hg
        intro he
        apply hni
        rw [issuedFrom]
        exact he ▸ List.mem_cons_self _ _
      · intro hmem
        apply hni
        rw [issuedFrom]
        exact List.mem_cons_of_mem _ hmem
    | unload k =>
      rw [execTrace]
      apply ih
      · exact lookup_erase_none g k h hg
      · intro hmem
        apply hni
        rw [issuedFrom]
        exact hmem

/-- The generation counter after `n` load calls, modulo the wraparound. -/
theorem replicate_load_generation (s : SessInfo) :
    ∀ (n : Nat) (g : RegState),
    (execTrace g (List.replicate n (RegOp.load s))).generation % U32 =
      (g.generation + n) % U32 := by
  intro n
  induction n with
  | zero =>
    intro g
    rw [List.replicate_zero, execTrace, Nat.add_zero]
  | succ n ih =>
    intro n2
    rw [List.replicate_succ, execTrace, ih, execOp, insert_state_generation,
      Nat.mod_add_mod]
    exact congrArg (fun x => x % U32) (by omega)

/-- The slot counter after `n` load calls, modulo the wraparound. -/
theorem replicate_load_slot (s : SessInfo) :
    ∀ (n : Nat) (g : RegState),
    (execTrace g (List.replicate n (RegOp.load s))).slot % U32 =
      (g.slot + n) % U32 := by
  intro n
  induction n with
  | zero =>
    intro g
    rw [List.replicate_zero, execTrace, Nat.add_zero]
  | succ n ih =>
    intro n2
    rw [List.replicate_succ, execTrace, ih, execOp, insert_state_slot,
      Nat.mod_add_mod]
    exact congrArg (fun x => x % U32) (by omega)

/-- An insert performed when both counters are congruent to 0 mod 2^32
mints the handle `(1 << 32) | 1` and stores the session under it. -/
theorem insert_result_of_counters_zero (g : RegState) (s : SessInfo)
    (hg : g.generation % U32 = 0) (hs : g.slot % U32 = 0) :
    (registry_insert g s).2 = U32 + 1 ∧
    registry_lookup ((registry_insert g s).1) (U32 + 1) = some s := by
  have h1 : (g.generation + 1) % U32 = 1 := by
    rw [← Nat.mod_add_mod, hg]
    decide
  have h2 : (g.slot + 1) % U32 = 1 := by
    rw [← Nat.mod_add_mod, hs]
    decide
  have hcond : ¬ ((1 : Nat) = 0 ∨ (1 : Nat) = 0) := by norm_num
  constructor
  · simp only [registry_insert, h1, h2, if_neg hcond]
    norm_num
  · simp only [registry_insert, h1, h2, if_neg hcond, registry_lookup, lookupA]
    norm_num

/-- An insert performed when the generation counter is congruent to
2^32 - 1 wraps it to 0 and is refused with the sentinel handle 0. -/
theorem insert_refused_of_counter_max (g : RegState) (s : SessInfo)
    (hg : g.generation % U32 = U32 - 1) :
    (registry_insert g s).2 = 0 := by
  have h1 : (g.generation + 1) % U32 = 0 := by
    rw [← Nat.mod_add_mod, hg]
    decide
  simp only [registry_insert, h1]
  simp

/-- Claim C1 (code bug): the overflow guard refuses only the single call
whose pre-increment wraps a counter to zero.  Starting from the initial
state, call 1 returns handle `(1 << 32) | 1`; call number 2^32 is refused
with the sentinel 0; but call number 2^32 + 1 increments the counters
past zero again and returns the same bit pattern `(1 << 32) | 1` a second
time, so a handle is reissued within one process, contrary to the
claimed no-reuse invariant and the code's own comment. -/
theorem c1_counter_wrap_reissues_handle :
    (registry_insert regInit sampleSession).2 = U32 + 1 ∧
    (registry_insert
      (execTrace regInit (List.replicate (U32 - 1) (RegOp.load sampleSession)))
      sampleSession).2 = 0 ∧
    (registry_insert
      (execTrace regInit (List.replicate U32 (RegOp.load sampleSession)))
      sampleSession).2 = U32 + 1 := by
  refine ⟨?_, ?_, ?_⟩
  · exact (insert_result_of_counters_zero regInit sampleSession (by decide) (by decide)).1
  · apply insert_refused_of_counter_max
    rw [replicate_load_generation]
    decide
  · refine (insert_result_of_counters_zero _ sampleSession ?_ ?_).1
    · rw [replicate_load_generation]
      decide
    · rw [replicate_load_slot]
      decide

/-- If `n` further loads take both counters exactly to congruent-1
(i.e. the increments wrap past zero along the way), the final load mints
the handle `(1 << 32) | 1` and the registry afterwards resolves that
handle to the final load's session. -/
theorem lookup_after_loads_wrap (s2 : SessInfo) (n : Nat) (g : RegState)
    (hn : 1 ≤ n)
    (hg : (g.generation + n) % U32 = 1) (hs : (g.slot + n) % U32 = 1) :
    registry_lookup (execTrace g (List.replicate n (RegOp.load s2))) (U32 + 1) =
      some s2 := by
  obtain ⟨m, rfl⟩ : ∃ m, n = m + 1 := ⟨n - 1, by omega⟩
  rw [List.replicate_succ', execTrace_append]
  have hG : (execTrace g (List.replicate m (RegOp.load s2))).generation % U32 = 0 := by
    rw [replicate_load_generation]
    unfold U32 at hg ⊢
    omega
  have hS : (execTrace g (List.replicate m (RegOp.load s2))).slot % U32 = 0 := by
    rw [replicate_load_slot]
    unfold U32 at hs ⊢
    omega
  exact (insert_result_of_counters_zero _ s2 hG hS).2

/-- Claim C9 counterexample: a handle removed by `registry_erase` can
resolve again.  Load once (handle `(1 << 32) | 1`), unload it, then
perform 2^32 further loads: the counters wrap past the single refused
call and the final load stores a different session under the very same
handle, which `registry_lookup` then returns. -/
theorem c9_erased_handle_resolves_again :
    registry_lookup
      (execTrace regInit
        (RegOp.load sampleSession :: RegOp.unload (U32 + 1) ::
          List.replicate U32 (RegOp.load sampleSession2)))
      (U32 + 1) = some sampleSession2 := by
  rw [show (RegOp.load sampleSession :: RegOp.unload (U32 + 1) ::
      List.replicate U32 (RegOp.load sampleSession2)) =
      [RegOp.load sampleSession, RegOp.unload (U32 + 1)] ++
        List.replicate U32 (RegOp.load sampleSession2) from rfl]
  rw [execTrace_append]
  rw [show execTrace regInit [RegOp.load sampleSession, RegOp.unload (U32 + 1)] =
      RegState.mk [] 1 1 from by decide]
  exact lookup_after_loads_wrap sampleSession2 U32 (RegState.mk [] 1 1)
    (by decide) (by decide) (by decide)

-- ── helper lemmas about the decode loop ──

/-- Committing a token from the state after `i` iterations yields the
state after `i + 1` iterations. -/
theorem stAt_step (env : Env) (i : Nat) :
    LoopSt.mk (accumOut env (i + 1)) ((stAt env i).count + 1)
      (if (stAt env i).count + 1 = 1 then env.ttftMs else (stAt env i).ttft) =
      stAt env (i + 1) := by
  show LoopSt.mk (accumOut env (i + 1)) (i + 1)
      (if i + 1 = 1 then env.ttftMs else ttftAt env i) = stAt env (i + 1)
  cases i with
  | zero => simp [stAt, ttftAt]
  | succ k =>
    rw [if_neg (by omega)]
    simp [stAt, ttftAt]

/-- One fully completing iteration advances the loop from the state
after `i` iterations to the state after `i + 1`. -/
theorem runLoop_step (env : Env) (timeoutMs : Int) (fuel i : Nat)
    (h1 : env.reqAt i = false) (h2 : env.elapsedAt i ≤ timeoutMs)
    (h3 : env.bestTokenAt i ≠ env.eos)
    (h4 : is_json_object_closed (accumOut env (i + 1)) = false)
    (h5 : env.decodeOkAt i = true) :
    runLoop env timeoutMs (fuel + 1) i false (stAt env i) =
      runLoop env timeoutMs fuel (i + 1) false (stAt env (i + 1)) := by
  rw [runLoop]
  rw [show (false || env.reqAt i) = false from by rw [h1]; rfl]
  rw [if_neg Bool.false_ne_true]
  rw [if_neg (not_lt.mpr h2), if_neg h3]
  rw [show (stAt env i).output ++ env.pieceAt i = accumOut env (i + 1) from rfl]
  rw [if_neg (by simp [h4]), if_pos h5]
  rw [stAt_step env i]

/-- `K` fully completing iterations advance the loop `K` states while
consuming `K` fuel. -/
theorem runLoop_advance (env : Env) (timeoutMs : Int) :
    ∀ (K i0 fuel : Nat), K ≤ fuel →
    (∀ j, j < K → stepCompletes env timeoutMs (i0 + j)) →
    runLoop env timeoutMs fuel i0 false (stAt env i0) =
      runLoop env timeoutMs (fuel - K) (i0 + K) false (stAt env (i0 + K)) := by
  intro K
  induction K with
  | zero =>
    intro i0 fuel _ _
    simp
  | succ K ih =>
    intro i0 fuel hf hsteps
    obtain ⟨f, rfl⟩ : ∃ f, fuel = f + 1 := ⟨fuel - 1, by omega⟩
    obtain ⟨h1, h2, h3, h4, h5⟩ := hsteps 0 (Nat.succ_pos K)
    rw [Nat.add_zero] at h1 h2 h3 h4 h5
    rw [runLoop_step env timeoutMs f i0 h1 h2 h3 h4 h5]
    have hsteps2 : ∀ j, j < K → stepCompletes env timeoutMs (i0 + 1 + j) := by
      intro j hj
      have hs := hsteps (j + 1) (by omega)
      rw [show i0 + (j + 1) = i0 + 1 + j from by omega] at hs
      exact hs
    rw [ih (i0 + 1) f (by omega) hsteps2]
    rw [show f - K = f + 1 - (K + 1) from by omega,
        show i0 + 1 + K = i0 + (K + 1) from by omega]

/-- A call that passes every guard produces the packaged decode-loop
result, with the loop started on the cancel flag freshly stored `false`
(line 349). -/
theorem run_eq_loop (handle : Nat) (s : SessInfo) (env : Env)
    (maxTokens : Nat) (timeoutMs : Int)
    (hh : ¬ handle = 0) (hp1 : env.poisoned1 = false) (hm : s.modelNull = false)
    (hc : s.ctxNull = false) (hp2 : env.poisoned2 = false)
    (hpr : env.promptNull = false) (ht : 0 ≤ env.nTokens)
    (hctx : env.nTokens < s.n_ctx) (hpf : env.prefillOk = true) :
    nativeRunInference handle (some s) env maxTokens timeoutMs =
      RunResult.ok (runLoop env timeoutMs maxTokens 0 false (stAt env 0)).count
        (runLoop env timeoutMs maxTokens 0 false (stAt env 0)).ttft
        (runLoop env timeoutMs maxTokens 0 false (stAt env 0)).output := by
  rw [nativeRunInference, if_neg hh]
  simp only [hp1, hm, hc, hp2, hpr, hpf, Bool.or_self, Bool.false_ne_true, if_false,
    if_true, Bool.false_eq_true]
  rw [if_neg (not_lt.mpr ht), if_neg (not_le.mpr hctx)]
  rfl

/-- A lookup miss surfaces as the STALE_HANDLE tagged error (line 327). -/
theorem run_stale (handle : Nat) (env : Env) (maxTokens : Nat) (timeoutMs : Int)
    (hh : ¬ handle = 0) :
    nativeRunInference handle none env maxTokens timeoutMs =
      RunResult.err ErrCode.STALE_HANDLE := by
  rw [nativeRunInference, if_neg hh]

/-- Claim C4: the poisoned flag is consulted both before the
InferenceGuard is constructed (line 331) and immediately after
(line 344); observing `true` at either point yields the POISONED tagged
error, for every engine behaviour whatsoever — the result is the same
constant for all tokenize/decode oracles, so no engine primitive's
result is consulted. -/
theorem c4_poisoned_checked_twice (handle : Nat) (s : SessInfo) (env : Env)
    (maxTokens : Nat) (timeoutMs : Int) (hh : ¬ handle = 0) :
    (env.poisoned1 = true →
      nativeRunInference handle (some s) env maxTokens timeoutMs =
        RunResult.err ErrCode.POISONED) ∧
    (env.poisoned1 = false → s.modelNull = false → s.ctxNull = false →
      env.poisoned2 = true →
      nativeRunInference handle (some s) env maxTokens timeoutMs =
        RunResult.err ErrCode.POISONED) := by
  constructor
  · intro hp1
    rw [nativeRunInference, if_neg hh]
    simp [hp1]
  · intro hp1 hm hc hp2
    rw [nativeRunInference, if_neg hh]
    simp [hp1, hm, hc, hp2]

/-- Claim C5: a negative tokenization result yields the TOKENIZE tagged
error, and a prompt whose token count is not strictly below the context
window yields the CTX_OVERFLOW tagged error, in both cases for every
decode oracle — no decode step's result is consulted, and the oversized
prompt is never truncated into a success result. -/
theorem c5_prompt_validation (handle : Nat) (s : SessInfo) (env : Env)
    (maxTokens : Nat) (timeoutMs : Int)
    (hh : ¬ handle = 0) (hp1 : env.poisoned1 = false) (hm : s.modelNull = false)
    (hc : s.ctxNull = false) (hp2 : env.poisoned2 = false)
    (hpr : env.promptNull = false) :
    (env.nTokens < 0 →
      nativeRunInference handle (some s) env maxTokens timeoutMs =
        RunResult.err ErrCode.TOKENIZE) ∧
    (0 ≤ env.nTokens → s.n_ctx ≤ env.nTokens →
      nativeRunInference handle (some s) env maxTokens timeoutMs =
        RunResult.err ErrCode.CTX_OVERFLOW) := by
  constructor
  · intro hneg
    rw [nativeRunInference, if_neg hh]
    simp [hp1, hm, hc, hp2, hpr, hneg]
  · intro hpos hover
    rw [nativeRunInference, if_neg hh]
    simp [hp1, hm, hc, hp2, hpr, not_lt.mpr hpos, hover]

/-- Claim C3: if the first `K - 1` iterations complete fully and
iteration `K` commits its token but its feed-back decode fails, the call
still returns the success-shaped result carrying exactly `K` tokens, the
measured TTFT and the accumulated partial text — not an error. -/
theorem c3_decode_failure_keeps_output (handle : Nat) (s : SessInfo) (env : Env)
    (maxTokens : Nat) (timeoutMs : Int) (K : Nat)
    (hh : ¬ handle = 0) (hp1 : env.poisoned1 = false) (hm : s.modelNull = false)
    (hc : s.ctxNull = false) (hp2 : env.poisoned2 = false)
    (hpr : env.promptNull = false) (ht : 0 ≤ env.nTokens)
    (hctx : env.nTokens < s.n_ctx) (hpf : env.prefillOk = true)
    (hK : 1 ≤ K) (hKm : K ≤ maxTokens)
    (hsteps : ∀ j, j < K - 1 → stepCompletes env timeoutMs j)
    (hreq : env.reqAt (K - 1) = false)
    (hel : env.elapsedAt (K - 1) ≤ timeoutMs)
    (heos : env.bestTokenAt (K - 1) ≠ env.eos)
    (hjson : is_json_object_closed (accumOut env K) = false)
    (hfail : env.decodeOkAt (K - 1) = false) :
    nativeRunInference handle (some s) env maxTokens timeoutMs =
      RunResult.ok K env.ttftMs (accumOut env K) := by
  obtain ⟨m, rfl⟩ : ∃ m, K = m + 1 := ⟨K - 1, by omega⟩
  rw [Nat.add_sub_cancel] at hsteps hreq hel heos hfail
  rw [run_eq_loop handle s env maxTokens timeoutMs hh hp1 hm hc hp2 hpr ht hctx hpf]
  have hsteps0 : ∀ j, j < m → stepCompletes env timeoutMs (0 + j) := by
    intro j hj
    rw [Nat.zero_add]
    exact hsteps j hj
  have hadv := runLoop_advance env timeoutMs m 0 maxTokens (by omega) hsteps0
  rw [Nat.zero_add] at hadv
  rw [hadv]
  obtain ⟨f, hf⟩ : ∃ f, maxTokens - m = f + 1 := ⟨maxTokens - (m + 1), by omega⟩
  rw [hf, runLoop]
  rw [show (false || env.reqAt m) = false from by rw [hreq]; rfl]
  rw [if_neg Bool.false_ne_true]
  rw [if_neg (not_lt.mpr hel), if_neg heos]
  rw [show (stAt env m).output ++ env.pieceAt m = accumOut env (m + 1) from rfl]
  rw [if_neg (by simp [hjson]), if_neg (by simp [hfail])]
  rw [stAt_step env m]
  rfl

/-- Claim C6: a cancel request visible at the very first check stops the
loop with zero tokens and empty text; a request first visible at check
`K` after `K` fully completed iterations stops it with exactly `K`
committed tokens (also when `K` equals the `maxTokens` budget, where the
loop ends anyway). -/
theorem c6_cancellation_commits_exactly (handle : Nat) (s : SessInfo) (env : Env)
    (maxTokens : Nat) (timeoutMs : Int)
    (hh : ¬ handle = 0) (hp1 : env.poisoned1 = false) (hm : s.modelNull = false)
    (hc : s.ctxNull = false) (hp2 : env.poisoned2 = false)
    (hpr : env.promptNull = false) (ht : 0 ≤ env.nTokens)
    (hctx : env.nTokens < s.n_ctx) (hpf : env.prefillOk = true) :
    (env.reqAt 0 = true →
      nativeRunInference handle (some s) env maxTokens timeoutMs =
        RunResult.ok 0 0 []) ∧
    (∀ K, K ≤ maxTokens → (∀ j, j < K → stepCompletes env timeoutMs j) →
      env.reqAt K = true →
      nativeRunInference handle (some s) env maxTokens timeoutMs =
        RunResult.ok K (ttftAt env K) (accumOut env K)) := by
  constructor
  · intro hq
    rw [run_eq_loop handle s env maxTokens timeoutMs hh hp1 hm hc hp2 hpr ht hctx hpf]
    cases maxTokens with
    | zero => rfl
    | succ m =>
      rw [runLoop]
      rw [show (false || env.reqAt 0) = true from by rw [hq]; rfl]
      rw [if_pos rfl]
      rfl
  · intro K hKm hsteps hq
    rw [run_eq_loop handle s env maxTokens timeoutMs hh hp1 hm hc hp2 hpr ht hctx hpf]
    have hsteps0 : ∀ j, j < K → stepCompletes env timeoutMs (0 + j) := by
      intro j hj
      rw [Nat.zero_add]
      exact hsteps j hj
    have hadv := runLoop_advance env timeoutMs K 0 maxTokens hKm hsteps0
    rw [Nat.zero_add] at hadv
    rw [hadv]
    cases hfm : maxTokens - K with
    | zero => rfl
    | succ f =>
      rw [runLoop]
      rw [show (false || env.reqAt K) = true from by rw [hq]; rfl]
      rw [if_pos rfl]
      rfl

/-- Claim C7: the call's behaviour is independent of the session's stale
`cancel_flag` value (the store at line 349 overwrites it before the
loop), and with no fresh cancel request the loop runs its whole
`maxTokens` budget even if the previous call left the flag `true`. -/
theorem c7_cancel_flag_reset (handle : Nat) (s : SessInfo) (env : Env)
    (maxTokens : Nat) (timeoutMs : Int)
    (hh : ¬ handle = 0) (hp1 : env.poisoned1 = false) (hm : s.modelNull = false)
    (hc : s.ctxNull = false) (hp2 : env.poisoned2 = false)
    (hpr : env.promptNull = false) (ht : 0 ≤ env.nTokens)
    (hctx : env.nTokens < s.n_ctx) (hpf : env.prefillOk = true)
    (hsteps : ∀ j, j < maxTokens → stepCompletes env timeoutMs j) :
    (∀ b1 b2 : Bool,
      nativeRunInference handle
        (some (SessInfo.mk s.modelNull s.ctxNull s.n_ctx b1)) env maxTokens timeoutMs =
      nativeRunInference handle
        (some (SessInfo.mk s.modelNull s.ctxNull s.n_ctx b2)) env maxTokens timeoutMs) ∧
    nativeRunInference handle (some s) env maxTokens timeoutMs =
      RunResult.ok maxTokens (ttftAt env maxTokens) (accumOut env maxTokens) := by
  constructor
  · intro b1 b2
    rfl
  · rw [run_eq_loop handle s env maxTokens timeoutMs hh hp1 hm hc hp2 hpr ht hctx hpf]
    have hsteps0 : ∀ j, j < maxTokens → stepCompletes env timeoutMs (0 + j) := by
      intro j hj
      rw [Nat.zero_add]
      exact hsteps j hj
    have hadv := runLoop_advance env timeoutMs maxTokens 0 maxTokens (Nat.le_refl _) hsteps0
    rw [Nat.zero_add] at hadv
    rw [hadv, Nat.sub_self]
    rfl

/-- Claim C9, amended: a handle that no insert of the trace ever
returned resolves to nothing, and a handle removed by `registry_erase`
and not returned again by a later insert resolves to nothing; in both
cases `nativeRunInference` surfaces the miss as the STALE_HANDLE tagged
error.  (The "not returned again" proviso is forced by the counter
wraparound of C1, under which an erased handle can be re-minted after
2^32 further loads.) -/
theorem c9_amended_stale_lookup (env : Env) (maxTokens : Nat) (timeoutMs : Int) :
    (∀ (t : List RegOp) (h : Nat), ¬ h = 0 → h ∉ issuedFrom regInit t →
      registry_lookup (execTrace regInit t) h = none ∧
      nativeRunInference h (registry_lookup (execTrace regInit t) h) env
        maxTokens timeoutMs = RunResult.err ErrCode.STALE_HANDLE) ∧
    (∀ (t1 t2 : List RegOp) (h : Nat), ¬ h = 0 →
      h ∉ issuedFrom (execTrace regInit (t1 ++ [RegOp.unload h])) t2 →
      registry_lookup (execTrace regInit (t1 ++ RegOp.unload h :: t2)) h = none ∧
      nativeRunInference h
        (registry_lookup (execTrace regInit (t1 ++ RegOp.unload h :: t2)) h) env
        maxTokens timeoutMs = RunResult.err ErrCode.STALE_HANDLE) := by
  constructor
  · intro t h hh hni
    have hl : registry_lookup (execTrace regInit t) h = none :=
      lookup_none_of_not_issued t regInit h rfl hni
    refine ⟨hl, ?_⟩
    rw [hl]
    exact run_stale h env maxTokens timeoutMs hh
  · intro t1 t2 h hh hni
    have hsplit : t1 ++ RegOp.unload h :: t2 = (t1 ++ [RegOp.unload h]) ++ t2 := by
      simp
    have hbase : registry_lookup (execTrace regInit (t1 ++ [RegOp.unload h])) h = none := by
      rw [execTrace_append]
      exact lookup_after_erase _ h
    have hl : registry_lookup (execTrace regInit (t1 ++ RegOp.unload h :: t2)) h = none := by
      rw [hsplit, execTrace_append]
      exact lookup_none_of_not_issued t2 _ h hbase hni
    refine ⟨hl, ?_⟩
    rw [hl]
    exact run_stale h env maxTokens timeoutMs hh

-- ── witnesses ──

/-- Witness for C3: with decode failing at iteration 1, a 4-token budget
returns the success result with exactly 2 tokens and text "aa". -/
theorem c3_decode_failure_keeps_output_witness :
    nativeRunInference 5 (some sampleSession) envDecodeFailAt1 4 1000 =
      RunResult.ok 2 7 ['a', 'a'] :=
  c3_decode_failure_keeps_output 5 sampleSession envDecodeFailAt1 4 1000 2
    (by decide) rfl rfl rfl rfl rfl (by decide) (by decide) rfl
    (by decide) (by decide) (by decide) rfl (by decide) (by decide) (by decide) rfl

/-- Witness for C4 at both poisoned observation points. -/
theorem c4_poisoned_checked_twice_witness :
    nativeRunInference 5 (some sampleSession) envPoisonedBefore 4 1000 =
      RunResult.err ErrCode.POISONED ∧
    nativeRunInference 5 (some sampleSession) envPoisonedAfter 4 1000 =
      RunResult.err ErrCode.POISONED :=
  ⟨(c4_poisoned_checked_twice 5 sampleSession envPoisonedBefore 4 1000 (by decide)).1 rfl,
   (c4_poisoned_checked_twice 5 sampleSession envPoisonedAfter 4 1000 (by decide)).2
     rfl rfl rfl rfl⟩

/-- Witness for C5 for both validation failures. -/
theorem c5_prompt_validation_witness :
    nativeRunInference 5 (some sampleSession) envTokenizeNeg 4 1000 =
      RunResult.err ErrCode.TOKENIZE ∧
    nativeRunInference 5 (some sampleSession) envCtxOverflow 4 1000 =
      RunResult.err ErrCode.CTX_OVERFLOW :=
  ⟨(c5_prompt_validation 5 sampleSession envTokenizeNeg 4 1000
      (by decide) rfl rfl rfl rfl rfl).1 (by decide),
   (c5_prompt_validation 5 sampleSession envCtxOverflow 4 1000
      (by decide) rfl rfl rfl rfl rfl).2 (by decide) (by decide)⟩

/-- Witness for C6: cancel at check 0 gives zero tokens; cancel at
check 2 gives exactly 2 tokens. -/
theorem c6_cancellation_commits_exactly_witness :
    nativeRunInference 5 (some sampleSession) envCancelAt0 4 1000 =
      RunResult.ok 0 0 [] ∧
    nativeRunInference 5 (some sampleSession) envCancelAt2 4 1000 =
      RunResult.ok 2 7 ['a', 'a'] :=
  ⟨(c6_cancellation_commits_exactly 5 sampleSession envCancelAt0 4 1000
      (by decide) rfl rfl rfl rfl rfl (by decide) (by decide) rfl).1 rfl,
   (c6_cancellation_commits_exactly 5 sampleSession envCancelAt2 4 1000
      (by decide) rfl rfl rfl rfl rfl (by decide) (by decide) rfl).2 2
     (by decide) (by decide) rfl⟩

/-- Witness for C7: a stale `true` cancel flag neither changes the
result nor stops the loop, which runs its full 2-token budget. -/
theorem c7_cancel_flag_reset_witness :
    (nativeRunInference 5 (some (SessInfo.mk false false 2048 true)) envBase 2 1000 =
      nativeRunInference 5 (some (SessInfo.mk false false 2048 false)) envBase 2 1000) ∧
    nativeRunInference 5 (some sessionStale) envBase 2 1000 =
      RunResult.ok 2 7 ['a', 'a'] :=
  ⟨(c7_cancel_flag_reset 5 sessionStale envBase 2 1000
      (by decide) rfl rfl rfl rfl rfl (by decide) (by decide) rfl (by decide)).1 true false,
   (c7_cancel_flag_reset 5 sessionStale envBase 2 1000
      (by decide) rfl rfl rfl rfl rfl (by decide) (by decide) rfl (by decide)).2⟩

/-- Witness for the amended C9 on concrete traces: handle 7 was never
issued by the empty trace, and is gone right after its unload. -/
theorem c9_amended_stale_lookup_witness :
    (registry_lookup (execTrace regInit []) 7 = none ∧
      nativeRunInference 7 (registry_lookup (execTrace regInit []) 7) envBase 4 1000 =
        RunResult.err ErrCode.STALE_HANDLE) ∧
    (registry_lookup (execTrace regInit ([] ++ RegOp.unload 7 :: [])) 7 = none ∧
      nativeRunInference 7
        (registry_lookup (execTrace regInit ([] ++ RegOp.unload 7 :: [])) 7)
        envBase 4 1000 = RunResult.err ErrCode.STALE_HANDLE) :=
  ⟨(c9_amended_stale_lookup envBase 4 1000).1 [] 7 (by decide) (by decide),
   (c9_amended_stale_lookup envBase 4 1000).2 [] [] 7 (by decide) (by decide)⟩
